import Mathlib

/-!
Verification of the ai-chat backend (src/backend/config.py and
src/backend/main.py) against its natural-language specification.

The Python sources are shallowly embedded below.  Python strings are
modelled as Lean `String`; the `str` methods used by the source
(`split`, `strip`, `startswith`, `replace`) are re-implemented over
`List Char` with their CPython semantics so that every definition is
executable by the kernel.  Wall-clock timestamps are modelled as `Nat`
parameters supplied by the caller; floating point configuration values
(temperature and friends) are modelled as rationals, since the code only
passes them through and never computes with them.
-/

/-! ## Python string primitives -/

/-- Model of CPython `str.split(",")` restricted to a one-character
separator: splits at every occurrence, keeping empty pieces
(so splitting the empty string yields one empty piece). -/
def pySplitCharList (sep : Char) : List Char → List (List Char)
  | [] => [[]]
  | c :: cs =>
    match pySplitCharList sep cs with
    | [] => [[]]
    | g :: gs => if c = sep then [] :: g :: gs else (c :: g) :: gs

/-- Model of CPython `str.split(",")` on `String`. -/
def pySplitComma (s : String) : List String :=
  (pySplitCharList ',' s.data).map String.mk

/-- Model of CPython `str.strip()`: remove whitespace from both ends. -/
def pyStripChars (l : List Char) : List Char :=
  ((l.dropWhile Char.isWhitespace).reverse.dropWhile Char.isWhitespace).reverse

/-- Model of CPython `str.strip()` on `String`. -/
def pyStrip (s : String) : String :=
  String.mk (pyStripChars s.data)

/-- Boolean prefix test on character lists. -/
def isPrefixChars : List Char → List Char → Bool
  | [], _ => true
  | _ :: _, [] => false
  | p :: ps, c :: cs => p == c && isPrefixChars ps cs

/-- Model of CPython `str.startswith(pat)`. -/
def pyStartsWith (s pat : String) : Bool :=
  isPrefixChars pat.data s.data

/-- Worker for `pyReplace`: scans left to right, replacing each
non-overlapping occurrence of `pat`.  Structural recursion on a fuel
argument that is initialised to the length of the scanned list (each
step consumes at least one character, so the fuel never runs out). -/
def pyReplaceGo (pat rep : List Char) : Nat → List Char → List Char
  | _, [] => []
  | 0, l => l
  | fuel + 1, c :: cs =>
    if isPrefixChars pat (c :: cs) then
      rep ++ pyReplaceGo pat rep fuel ((c :: cs).drop pat.length)
    else
      c :: pyReplaceGo pat rep fuel cs

/-- Model of CPython `str.replace(pat, rep)` for a non-empty `pat`:
replace every non-overlapping occurrence, scanning left to right.
(The source only ever calls `replace` with non-empty patterns.) -/
def pyReplace (s pat rep : String) : String :=
  if pat.data.isEmpty then s
  else String.mk (pyReplaceGo pat.data rep.data s.data.length s.data)

/-! ## config.py: CORS origin parsing (Settings.parse_cors_origins) -/

/-- The argument of the `parse_cors_origins` validator: either a raw
comma-separated string or an already-split list (`Union[str, List[str]]`). -/
inductive CorsInput where
  | str (v : String)
  | list (v : List String)

/-- The trimmed, non-empty entries of a comma-separated origin string
(config.py lines 98-100). -/
def cors_entries (v : String) : List String :=
  ((pySplitComma v).map pyStrip).filter (fun o => o ≠ "")

/-- The per-origin expansion performed by the validator loop
(config.py lines 103-111): the origin itself, then an https variant when
the origin starts with http://, then a www variant when the origin does
not start with www. (the www variant is built by replacing each
occurrence of :// with ://www.). -/
def expandOrigin (origin : String) : List String :=
  [origin]
    ++ (if pyStartsWith origin ("http://") then
          [pyReplace origin ("http://") ("https://")]
        else [])
    ++ (if !(pyStartsWith origin ("www.")) then
          [pyReplace origin ("://") ("://www.")]
        else [])

/-- Model of `Settings.parse_cors_origins` (config.py lines 92-115).
A string input is split on commas, trimmed, filtered of empties,
expanded per origin and de-duplicated (the source returns
`list(set(...))`, whose order is unspecified; `dedup` is one such
order).  A list input is returned unchanged. -/
def parse_cors_origins : CorsInput → List String
  | CorsInput.str v => ((cors_entries v).flatMap expandOrigin).dedup
  | CorsInput.list v => v

/-! ## config.py: Settings and get_settings -/

/-- Model of the `Settings` pydantic model (config.py lines 45-90):
the fields the embedded endpoints read.  `HttpUrl` fields are modelled
as strings (a parsed URL is in particular never the empty string). -/
structure Settings where
  app_name : String
  environment : String
  debug : Bool
  cors_origins : List String
  openai_api_key : String
  openai_api_base : String
  openai_api_version : String
  openai_deployment_name : String
  vector_search_enabled : Bool
  vector_search_endpoint : Option String
  vector_search_key : Option String
  vector_search_index : Option String
  system_prompt : String
deriving DecidableEq

/-- The environment assignment consumed by `get_settings`, after
pydantic type coercion of each variable (booleans parsed, URLs
validated) but before any validator runs.  `none` models an absent
optional variable; `some ""` models a variable set to the empty
string.  Defaults mirror config.py. -/
structure EnvConfig where
  app_name : String := "AI Chat Assistant"
  environment : String := "production"
  debug : Bool := false
  cors_origins : CorsInput := CorsInput.list ["http://localhost:3000"]
  openai_api_key : String
  openai_api_base : String
  openai_api_version : String := "2023-05-15"
  openai_deployment_name : String
  vector_search_enabled : Bool := false
  vector_search_endpoint : Option String := none
  vector_search_key : Option String := none
  vector_search_index : Option String := none
  system_prompt : String :=
    "You are an AI assistant. You aim to be helpful, honest, and direct in your interactions."

/-- Model of `get_settings` (config.py lines 149-152): constructs the
cached `Settings` instance from the environment.  The only validator on
the class is `parse_cors_origins`; every other field, in particular the
four vector-search fields, is taken over unchanged. -/
def get_settings (env : EnvConfig) : Settings where
  app_name := env.app_name
  environment := env.environment
  debug := env.debug
  cors_origins := parse_cors_origins env.cors_origins
  openai_api_key := env.openai_api_key
  openai_api_base := env.openai_api_base
  openai_api_version := env.openai_api_version
  openai_deployment_name := env.openai_deployment_name
  vector_search_enabled := env.vector_search_enabled
  vector_search_endpoint := env.vector_search_endpoint
  vector_search_key := env.vector_search_key
  vector_search_index := env.vector_search_index
  system_prompt := env.system_prompt

/-- Model of the `VectorSearchSettings` pydantic model
(config.py lines 7-17). -/
structure VectorSearchSettings where
  enabled : Bool
  endpoint : Option String
  key : Option String
  index_name : Option String
  semantic_config : String
  query_type : String
  strictness : Nat
  top_n_documents : Nat
  embedding_deployment : String
deriving DecidableEq

/-- Model of the `Settings.vector_search_settings` property
(config.py lines 127-135): passes the four vector-search fields
through unchanged, the remaining fields keeping their defaults. -/
def Settings.vector_search_settings (s : Settings) : VectorSearchSettings where
  enabled := s.vector_search_enabled
  endpoint := s.vector_search_endpoint
  key := s.vector_search_key
  index_name := s.vector_search_index
  semantic_config := "default"
  query_type := "vector_simple_hybrid"
  strictness := 3
  top_n_documents := 5
  embedding_deployment := "text-embedding-ada-002"

/-! ## main.py: request schema (ChatMessage, ChatRequest) -/

/-- Model of the `ChatMessage` pydantic model (main.py lines 92-95). -/
structure ChatMessage where
  role : String
  content : String
  timestamp : String
deriving DecidableEq

/-- Model of the `ChatRequest` pydantic model (main.py lines 97-100).
`max_tokens` and `temperature` are `Optional` with non-None defaults,
so an explicit null is representable. -/
structure ChatRequest where
  messages : List ChatMessage
  max_tokens : Option Int
  temperature : Option ℚ
deriving DecidableEq

/-- The raw field assignment handed to pydantic validation of a
`ChatRequest`: the outer `Option` records whether the field was present
at all. -/
structure RawChatRequest where
  messages : Option (List ChatMessage)
  max_tokens : Option (Option Int)
  temperature : Option (Option ℚ)

/-- Model of pydantic validation of `ChatRequest` (main.py lines
97-100): `messages` is required and is a plain `List[ChatMessage]` with
no minimum length; `max_tokens` defaults to 4000 and `temperature` to
0.7 when the fields are absent. -/
def ChatRequest.validate (raw : RawChatRequest) : Except String ChatRequest :=
  match raw.messages with
  | none => Except.error "field required: messages"
  | some ms =>
      Except.ok
        { messages := ms
          max_tokens := raw.max_tokens.getD (some 4000)
          temperature := raw.temperature.getD (some ((7 : ℚ) / 10)) }

/-! ## main.py: completion relay (generate_chat_completion) -/

/-- A message entry of the list handed to the completion API
(a role/content dictionary). -/
structure Msg where
  role : String
  content : String
deriving DecidableEq

/-- Python truthiness of an optional string: `None` and the empty
string are falsy.  This is the test `all([...])` performs on the three
vector-search fields in main.py lines 194-198. -/
def truthyOpt : Option String → Bool
  | none => false
  | some s => !(s == "")

/-- The conjunction `all([endpoint, key, index])` of main.py lines
194-198 over a `Settings` value. -/
def vectorConfigComplete (s : Settings) : Bool :=
  truthyOpt s.vector_search_endpoint
    && truthyOpt s.vector_search_key
    && truthyOpt s.vector_search_index

/-- The grounding data-source descriptor attached as
`completion_kwargs["dataSources"]` (main.py lines 203-218). -/
structure DataSource where
  endpoint : String
  key : String
  indexName : String
  semanticConfiguration : String
  queryType : String
  inScope : Bool
  roleInformation : String
  strictness : Nat
  topNDocuments : Nat
  filterStr : String
  embeddingDeploymentName : String
deriving DecidableEq

/-- The keyword-argument record built for
`client.chat.completions.create` (main.py lines 181-190), including the
optional `dataSources` entry. -/
structure CompletionKwargs where
  model : String
  messages : List Msg
  max_tokens : Option Int
  temperature : Option ℚ
  top_p : ℚ
  frequency_penalty : ℚ
  presence_penalty : ℚ
  stream : Bool
  dataSources : Option (List DataSource)
deriving DecidableEq

/-- The exceptions the body of `generate_chat_completion` can raise
before any request is sent: the explicit
`ValueError("Incomplete vector search configuration")` of main.py line
200, and the `AttributeError` raised when the data-source literal reads
a field that the `Settings` class does not define (main.py lines 209
and 216 read `vector_search_semantic_config` and
`vector_search_embedding_deployment`, neither of which is declared in
config.py). -/
inductive GenFailure where
  | incompleteConfig
  | missingAttribute (name : String)
deriving DecidableEq

/-- The `str(e)` rendering of a `GenFailure`.  The `AttributeError`
message is abridged to its attribute name. -/
def genFailureMsg : GenFailure → String
  | GenFailure.incompleteConfig => "Incomplete vector search configuration"
  | GenFailure.missingAttribute n => "Settings object has no attribute " ++ n

/-- Model of the `try` body of `generate_chat_completion`
(main.py lines 180-233): build the keyword arguments; when vector
search is enabled, first check the three required fields and raise if
any is falsy, otherwise evaluate the data-source literal, which reads
the undeclared `vector_search_semantic_config` attribute and raises.
The network call itself is external and not modelled; the value
returned is the fully built request payload. -/
def generate_chat_completion_body (st : Settings) (messages : List Msg)
    (max_tokens : Option Int) (temperature : Option ℚ) (stream : Bool) :
    Except GenFailure CompletionKwargs :=
  let kwargs : CompletionKwargs :=
    { model := st.openai_deployment_name
      messages := messages
      max_tokens := max_tokens
      temperature := temperature
      top_p := (95 : ℚ) / 100
      frequency_penalty := 0
      presence_penalty := 0
      stream := stream
      dataSources := none }
  if st.vector_search_enabled then
    if !(vectorConfigComplete st) then
      Except.error GenFailure.incompleteConfig
    else
      Except.error (GenFailure.missingAttribute "vector_search_semantic_config")
  else
    Except.ok kwargs

/-- An `HTTPException` value (status code and detail text). -/
structure HTTPError where
  status : Nat
  detail : String
deriving DecidableEq

/-- Model of `generate_chat_completion` (main.py lines 178-241): any
exception from the body is caught and re-raised as an
`HTTPException(500, "OpenAI API error: " + str(e))`. -/
def generate_chat_completion (st : Settings) (messages : List Msg)
    (max_tokens : Option Int) (temperature : Option ℚ) (stream : Bool) :
    Except HTTPError CompletionKwargs :=
  match generate_chat_completion_body st messages max_tokens temperature stream with
  | Except.ok k => Except.ok k
  | Except.error f =>
      Except.error { status := 500, detail := "OpenAI API error: " ++ genFailureMsg f }

/-- The message list both endpoints pass to the upstream completion
call (main.py lines 303-308 and 467-472): one system message built
from the configured system prompt, then the role/content projection of
the request messages in order. -/
def chat_messages (st : Settings) (req : ChatRequest) : List Msg :=
  { role := "system", content := st.system_prompt }
    :: req.messages.map (fun m => { role := m.role, content := m.content })

/-- Model of the `POST /chat` handler up to the upstream call
(main.py lines 296-315): builds the message list and the request
payload with `stream=False`. -/
def chat_endpoint (st : Settings) (req : ChatRequest) :
    Except HTTPError CompletionKwargs :=
  generate_chat_completion st (chat_messages st req) req.max_tokens req.temperature false

/-! ## main.py: stream relay (stream_generator, StreamMetrics, monitor_stream) -/

/-- The `delta` of a streamed choice: its optional `content` text. -/
structure Delta where
  content : Option String
deriving DecidableEq

/-- One choice of a streamed chunk. -/
structure Choice where
  delta : Delta
deriving DecidableEq

/-- The optional `usage` attribute of a chunk, when the upstream
reports token usage. -/
structure ChunkUsage where
  total_tokens : Nat
deriving DecidableEq

/-- One upstream chunk of a streaming completion.  A finite upstream
stream is modelled as a `List Chunk` (the sequence the upstream
produced before closing). -/
structure Chunk where
  choices : List Choice
  usage : Option ChunkUsage
deriving DecidableEq

/-- The truthiness test of main.py line 431:
`chunk and chunk.choices and chunk.choices[0].delta.content`
(a chunk object is always truthy; an empty choice list and a missing or
empty content are falsy). -/
def chunkContentTruthy (c : Chunk) : Bool :=
  match c.choices with
  | [] => false
  | ch :: _ =>
    match ch.delta.content with
    | none => false
    | some s => !(s == "")

/-- The content text of the first choice of a chunk (empty string when
absent); meaningful for chunks passing `chunkContentTruthy`. -/
def fragmentText (c : Chunk) : String :=
  match c.choices with
  | [] => ""
  | ch :: _ => ch.delta.content.getD ""

/-- Model of `stream_generator` (main.py lines 428-435): yields, in
arrival order, the first-choice content of every chunk whose content is
truthy.  On the exception-free runs modelled here the try/except
re-raise is inert. -/
def stream_generator (chunks : List Chunk) : List String :=
  chunks.filterMap fun c =>
    match c.choices with
    | [] => none
    | ch :: _ =>
      match ch.delta.content with
      | none => none
      | some s => if s = "" then none else some s

/-- Model of the `StreamMetrics` counters (main.py lines 140-153).
The wall-clock fields (`start_time`, and the derived duration and rate
of `get_metrics`) are real-time measurements and are not modelled. -/
structure StreamMetrics where
  chunk_count : Nat
  total_tokens : Nat
  errors : Nat
deriving DecidableEq

/-- A fresh `StreamMetrics()` (all counters zero). -/
def StreamMetrics.init : StreamMetrics :=
  { chunk_count := 0, total_tokens := 0, errors := 0 }

/-- Model of `StreamMetrics.record_chunk` (main.py lines 147-150):
increment the chunk count, and add the reported token usage when the
chunk carries one. -/
def StreamMetrics.record_chunk (m : StreamMetrics) (c : Chunk) : StreamMetrics :=
  { m with
      chunk_count := m.chunk_count + 1
      total_tokens :=
        m.total_tokens + (match c.usage with | some u => u.total_tokens | none => 0) }

/-- Model of `monitor_stream` (main.py lines 165-176) on an
exception-free finite stream: every chunk is recorded and passed
through unchanged, and the metrics summary logged by the `finally`
block is returned alongside. -/
def monitor_stream (chunks : List Chunk) : List Chunk × StreamMetrics :=
  (chunks, chunks.foldl StreamMetrics.record_chunk StreamMetrics.init)

/-! ## main.py: ConnectionManager -/

/-- A websocket as the connection manager sees it: the client host and
port (from which the identity key is derived), and whether the
`accept()` call will succeed (modelling the try/except of main.py
lines 361-373). -/
structure WSocket where
  host : String
  port : Nat
  acceptOk : Bool
deriving DecidableEq

/-- The identity key `f"{host}:{port}"` of main.py line 342. -/
def clientId (ws : WSocket) : String :=
  ws.host ++ ":" ++ Nat.repr ws.port

/-- One entry of the connection table: the identity key, the stored
websocket (`active_connections[cid]`) and the connect time
(`connection_times[cid]`; the two dicts are mutated in lockstep in
every branch of the source, so they are modelled as one table). -/
structure ConnEntry where
  cid : String
  ws : WSocket
  connectedAt : Nat
deriving DecidableEq

/-- A close call issued on a websocket: `close()` without a code, or
`close(code=...)`. -/
inductive CloseEv where
  | plain (ws : WSocket)
  | policy (ws : WSocket) (code : Nat)
deriving DecidableEq

/-- Model of the `ConnectionManager` state (main.py lines 332-339). -/
structure ConnectionManager where
  active_connections : List ConnEntry
  max_connections : Nat
  timeout : Nat
deriving DecidableEq

/-- `ConnectionManager(max_connections, timeout)`: empty table. -/
def ConnectionManager.init (maxConn timeoutSecs : Nat) : ConnectionManager :=
  { active_connections := [], max_connections := maxConn, timeout := timeoutSecs }

/-- Deletion of a client identity from the connection table
(`del self.active_connections[client_id]`). -/
def removeClient (t : List ConnEntry) (cid : String) : List ConnEntry :=
  t.filter (fun e => e.cid != cid)

/-- Model of `ConnectionManager.connect` (main.py lines 341-373),
returning the new state, the boolean result, and the close calls
issued, in order.  The branches mirror the source: an existing entry
for the same identity is closed (best-effort) and removed first; then
the table size is checked against the maximum and the attempt refused
with close code 1008 (policy violation) when full; otherwise the
websocket is accepted and the entry recorded (nothing is recorded when
`accept()` raises). -/
def ConnectionManager.connect (m : ConnectionManager) (ws : WSocket) (now : Nat) :
    ConnectionManager × Bool × List CloseEv :=
  match m.active_connections.find? (fun e => e.cid == clientId ws) with
  | some old =>
    if (removeClient m.active_connections (clientId ws)).length ≥ m.max_connections then
      ({ m with active_connections := removeClient m.active_connections (clientId ws) },
        false, [CloseEv.plain old.ws, CloseEv.policy ws 1008])
    else if ws.acceptOk then
      ({ m with active_connections := removeClient m.active_connections (clientId ws)
          ++ [{ cid := clientId ws, ws := ws, connectedAt := now }] },
        true, [CloseEv.plain old.ws])
    else
      ({ m with active_connections := removeClient m.active_connections (clientId ws) },
        false, [CloseEv.plain old.ws])
  | none =>
    if m.active_connections.length ≥ m.max_connections then
      (m, false, [CloseEv.policy ws 1008])
    else if ws.acceptOk then
      ({ m with active_connections :=
          m.active_connections ++ [{ cid := clientId ws, ws := ws, connectedAt := now }] },
        true, [])
    else
      (m, false, [])

/-- Model of `ConnectionManager.disconnect` (main.py lines 375-385):
remove the entry for the identity when present and attempt a
best-effort close of the websocket (always attempted, errors
suppressed). -/
def ConnectionManager.disconnect (m : ConnectionManager) (ws : WSocket) :
    ConnectionManager × List CloseEv :=
  ({ m with active_connections := removeClient m.active_connections (clientId ws) },
    [CloseEv.plain ws])

/-- One operation on the connection manager. -/
inductive CMOp where
  | conn (ws : WSocket) (now : Nat)
  | disc (ws : WSocket)
deriving DecidableEq

/-- A sequence of connect and disconnect operations applied to a
manager state (the periodic sweep only issues `disconnect`s, so its
effect is covered by `disc` operations). -/
def runOps (m : ConnectionManager) : List CMOp → ConnectionManager
  | [] => m
  | CMOp.conn ws now :: rest => runOps (ConnectionManager.connect m ws now).1 rest
  | CMOp.disc ws :: rest => runOps (ConnectionManager.disconnect m ws).1 rest

/-! ## main.py: websocket session loop (websocket_endpoint) -/

/-- The outcome of parsing one inbound text frame, as the session loop
observes it (main.py lines 450-465): `json.loads` failed, schema
validation of `ChatRequest(**data)` failed, or a valid request was
produced.  A valid frame also carries the chunk sequence the upstream
will produce for this turn. -/
inductive ParseOutcome where
  | malformedJson (err : String)
  | schemaError (err : String)
  | valid (req : ChatRequest) (upstream : List Chunk)

/-- One inbound event of a websocket session: a text frame, or the
client disconnecting (`WebSocketDisconnect`). -/
inductive InFrame where
  | msg (p : ParseOutcome)
  | disconnect

/-- The `str()` rendering of an `HTTPException`
(`"{status_code}: {detail}"`). -/
def httpExceptionStr (e : HTTPError) : String :=
  Nat.repr e.status ++ ": " ++ e.detail

/-- The text frames sent in reply to one inbound frame (main.py lines
450-489): malformed JSON and schema failures each produce exactly one
error frame; a valid request builds the message list, calls the
completion relay with `stream=True`, forwards every fragment produced
by `stream_generator` in order, and renders a caught exception as one
`"Error: ..."` frame. -/
def handle_msg (st : Settings) : ParseOutcome → List String
  | ParseOutcome.malformedJson e => ["Invalid JSON format: " ++ e]
  | ParseOutcome.schemaError e => ["Invalid request format: " ++ e]
  | ParseOutcome.valid req chunks =>
    match generate_chat_completion st (chat_messages st req)
        req.max_tokens req.temperature true with
    | Except.ok _ => stream_generator chunks
    | Except.error e => ["Error: " ++ httpExceptionStr e]

/-- The websocket session loop after a successful connect (main.py
lines 444-497): handle each inbound frame in turn, stopping at a
disconnect; the replies to successive frames are concatenated in
order.  No branch of the loop closes the connection on a parse
error. -/
def runSession (st : Settings) : List InFrame → List String
  | [] => []
  | InFrame.disconnect :: _ => []
  | InFrame.msg p :: rest => handle_msg st p ++ runSession st rest

/-- Model of the streaming section of `websocket_endpoint` for one
valid turn (main.py lines 474-483): the text frames sent downstream,
paired with the summary metrics records emitted during the turn.  The
source iterates `stream_generator(stream)` directly and sends each
fragment; no `StreamMetrics` object is ever created on this path and
`monitor_stream` (main.py lines 165-176) has no caller anywhere in the
program, so the list of emitted metrics records is empty. -/
def ws_stream_turn (chunks : List Chunk) : List String × List StreamMetrics :=
  (stream_generator chunks, [])

/-! ## Concrete fixtures used by witnesses and counterexamples -/

/-- An environment with vector search enabled but the key set to the
empty string (all required completion-API variables present). -/
def envC1 : EnvConfig where
  openai_api_key := "test-key"
  openai_api_base := "https://oai.example.net"
  openai_deployment_name := "gpt-4o"
  vector_search_enabled := true
  vector_search_endpoint := some "https://search.example.net"
  vector_search_key := some ""
  vector_search_index := some "docs-index"

/-- A resolved `Settings` value with vector search enabled but the key
empty. -/
def stC2 : Settings where
  app_name := "AI Chat Assistant"
  environment := "production"
  debug := false
  cors_origins := ["http://localhost:3000"]
  openai_api_key := "test-key"
  openai_api_base := "https://oai.example.net"
  openai_api_version := "2023-05-15"
  openai_deployment_name := "gpt-4o"
  vector_search_enabled := true
  vector_search_endpoint := some "https://search.example.net"
  vector_search_key := some ""
  vector_search_index := some "docs-index"
  system_prompt := "You are an AI assistant."

/-- A concrete upstream stream of two fragments, both with non-empty
content, the second also reporting token usage. -/
def chunksC5 : List Chunk :=
  [ { choices := [{ delta := { content := some "Hel" } }], usage := none },
    { choices := [{ delta := { content := some "lo" } }], usage := some { total_tokens := 7 } } ]

example : pySplitComma ("a,b , c") = ["a", "b ", " c"] := by decide
example : pySplitComma ("") = [""] := by decide
example : pyStrip (" x ") = "x" := by decide
example : pyStartsWith ("http://e") ("http://") = true := by decide
example : pyReplace ("http://e") ("http://") ("https://") = "https://e" := by decide
example : pyReplace ("http://www.example.com") ("://") ("://www.")
    = "http://www.www.example.com" := by decide
example : pyReplace ("example.com") ("://") ("://www.") = "example.com" := by decide

/-! ## Claim C1 -/

/-- Refutation for claim C1: an environment with `vector_search_enabled`
true and `vector_search_key` the empty string resolves, through
`get_settings`, to a `Settings` whose `vector_search_enabled` is still
true — the resolver performs no auto-downgrade. -/
theorem vector_flag_not_downgraded_cex :
    envC1.vector_search_enabled = true ∧
    envC1.vector_search_key = some "" ∧
    ¬ ((get_settings envC1).vector_search_enabled = false) := by
  refine ⟨rfl, rfl, ?_⟩
  decide

/-- Claim C1 (amended): for every environment configuration in which
`vector_search_enabled` is true and any of the three vector-search
fields is empty or absent, the `Settings` value produced by
`get_settings` keeps `vector_search_enabled` equal to true (and so does
the derived `vector_search_settings`): the resolver passes the flag
through unchanged; the inconsistency is only detected per request by
`generate_chat_completion`. -/
theorem vector_flag_preserved_when_incomplete (env : EnvConfig)
    (henabled : env.vector_search_enabled = true)
    (_hmissing : truthyOpt env.vector_search_endpoint = false ∨
      truthyOpt env.vector_search_key = false ∨
      truthyOpt env.vector_search_index = false) :
    (get_settings env).vector_search_enabled = true ∧
    ((get_settings env).vector_search_settings).enabled = true := by
  exact ⟨henabled, henabled⟩

/-- Witness for the amended claim C1 at the concrete environment. -/
theorem vector_flag_preserved_witness :
    (get_settings envC1).vector_search_enabled = true ∧
    ((get_settings envC1).vector_search_settings).enabled = true :=
  vector_flag_preserved_when_incomplete envC1 (by decide)
    (Or.inr (Or.inl (by decide)))

/-! ## Claim C2 -/

/-- Claim C2: whenever `vector_search_enabled` is true and at least one
of the endpoint, key and index is missing (falsy), every call to
`generate_chat_completion` — for any message list, token limit,
temperature and streaming mode — fails with the incomplete-configuration
error (re-raised as an HTTP 500); no request payload is returned, so no
partial grounding data source is ever attached or sent. -/
theorem generate_fails_fast_on_incomplete_config (st : Settings)
    (messages : List Msg) (max_tokens : Option Int) (temperature : Option ℚ)
    (stream : Bool)
    (henabled : st.vector_search_enabled = true)
    (hmissing : vectorConfigComplete st = false) :
    generate_chat_completion st messages max_tokens temperature stream =
      Except.error
        { status := 500,
          detail := "OpenAI API error: Incomplete vector search configuration" } := by
  simp [generate_chat_completion, generate_chat_completion_body, henabled,
    hmissing, genFailureMsg]

/-- Witness for claim C2 at a concrete misconfigured `Settings`. -/
theorem generate_fails_fast_witness :
    generate_chat_completion stC2 [] none none false =
      Except.error
        { status := 500,
          detail := "OpenAI API error: Incomplete vector search configuration" } :=
  generate_fails_fast_on_incomplete_config stC2 [] none none false
    (by decide) (by decide)

/-! ## Claim C8 -/

/-- Claim C8: a malformed-JSON text frame received by the websocket
session loop produces exactly one error text frame, the connection is
not closed, and the loop proceeds to the remaining inbound frames,
which are processed exactly as they would be on their own. -/
theorem malformed_json_single_error_frame (st : Settings) (e : String)
    (rest : List InFrame) :
    runSession st (InFrame.msg (ParseOutcome.malformedJson e) :: rest)
      = ("Invalid JSON format: " ++ e) :: runSession st rest := by
  simp [runSession, handle_msg]

/-! ## Claim C9 -/

/-- Claim C9: for every chat request, the message list passed to the
upstream completion call (built identically by the HTTP handler and the
websocket handler via `chat_messages`) is exactly one system message
carrying the configured system prompt, followed by the role/content
projection of the request messages in their original order. -/
theorem system_prompt_prepended (st : Settings) (req : ChatRequest) :
    (chat_messages st req).head? = some { role := "system", content := st.system_prompt } ∧
    (chat_messages st req).tail
      = req.messages.map (fun m => { role := m.role, content := m.content }) ∧
    (chat_messages st req).length = req.messages.length + 1 := by
  refine ⟨rfl, rfl, ?_⟩
  simp [chat_messages]

/-! ## Claim C10 -/

/-- Claim C10: a `POST /chat` body with an empty `messages` array passes
`ChatRequest` validation (the schema places no minimum length on the
list), resolving the optional fields to their defaults, and the message
list handed to the upstream call then contains only the prepended
system-prompt message. -/
theorem empty_messages_accepted_system_only (st : Settings) :
    ChatRequest.validate { messages := some [], max_tokens := none, temperature := none }
      = Except.ok ⟨[], some 4000, some ((7 : ℚ) / 10)⟩ ∧
    chat_messages st ⟨[], some 4000, some ((7 : ℚ) / 10)⟩
      = [{ role := "system", content := st.system_prompt }] := by
  exact ⟨rfl, rfl⟩

/-! ## Claim C5 -/

/-- The chunk count of folding `record_chunk` over a stream is the
initial count plus the number of chunks. -/
lemma foldl_record_chunk_count (chunks : List Chunk) (m : StreamMetrics) :
    (chunks.foldl StreamMetrics.record_chunk m).chunk_count
      = m.chunk_count + chunks.length := by
  induction chunks generalizing m with
  | nil => simp
  | cons c cs ih =>
    simp [List.foldl, ih, StreamMetrics.record_chunk]
    omega

/-- On a stream whose chunks all carry truthy content, the relay keeps
every chunk: it emits that chunk's fragment text. -/
lemma stream_generator_all_truthy (chunks : List Chunk)
    (h : ∀ c ∈ chunks, chunkContentTruthy c = true) :
    stream_generator chunks = chunks.map fragmentText := by
  induction chunks with
  | nil => rfl
  | cons c cs ih =>
    have hc : chunkContentTruthy c = true := h c (List.mem_cons_self c cs)
    have hcs : ∀ x ∈ cs, chunkContentTruthy x = true :=
      fun x hx => h x (List.mem_cons_of_mem c hx)
    rcases c with ⟨choices, usage⟩
    cases choices with
    | nil => simp [chunkContentTruthy] at hc
    | cons ch rest =>
      cases hcon : ch.delta.content with
      | none => simp [chunkContentTruthy, hcon] at hc
      | some s =>
        have hs : ¬ (s = "") := by
          simpa [chunkContentTruthy, hcon] using hc
        simp [stream_generator, fragmentText, hcon, hs] at ih ⊢
        exact ih hcs

/-- Claim C5 (code bug): evaluating the websocket streaming relay at a
concrete two-fragment upstream.  The delivery half of the claim holds —
both fragments are sent downstream, in upstream order — but the list of
summary metrics records emitted during the turn is empty: the relay
path of `websocket_endpoint` never creates a `StreamMetrics`, because
`monitor_stream` has no caller in the program, so no record reporting
`chunk_count = N` is emitted at stream end.  The last conjunct shows
what the defined-but-unused instrumentation would have reported on this
very stream had it been wired in. -/
theorem stream_metrics_never_emitted_eval :
    (ws_stream_turn chunksC5).1 = ["Hel", "lo"] ∧
    (ws_stream_turn chunksC5).2 = [] ∧
    (monitor_stream chunksC5).2.chunk_count = 2 := by
  refine ⟨by decide, rfl, by decide⟩

/-! ## Claim C6 -/

/-- Refutation for claim C6: when the allowed-origin input arrives as a
list, `parse_cors_origins` returns it unchanged, so an `http://` entry
has no `https://` sibling in the result. -/
theorem cors_list_input_not_expanded_cex :
    parse_cors_origins (CorsInput.list ["http://example.com"])
        = ["http://example.com"] ∧
    ¬ ("https://example.com"
        ∈ parse_cors_origins (CorsInput.list ["http://example.com"])) := by
  refine ⟨rfl, ?_⟩
  decide

/-- Claim C6 (amended): when the allowed-origin input is given as a
comma-separated string, every trimmed non-empty entry that starts with
`http://` yields its `https://` sibling (the entry with each
occurrence of `http://` replaced by `https://`, which for an ordinary
origin is exactly the scheme replacement) in the normalized list.
List inputs are returned unchanged and gain no siblings. -/
theorem cors_https_variant_for_string_input (v o : String)
    (ho : o ∈ cors_entries v)
    (hhttp : pyStartsWith o ("http://") = true) :
    pyReplace o ("http://") ("https://")
      ∈ parse_cors_origins (CorsInput.str v) := by
  simp only [parse_cors_origins, List.mem_dedup]
  refine List.mem_flatMap.mpr ⟨o, ho, ?_⟩
  simp [expandOrigin, hhttp]

/-- Witness for the amended claim C6 at a concrete origin string. -/
theorem cors_https_variant_witness :
    pyReplace ("http://example.com") ("http://") ("https://")
      ∈ parse_cors_origins (CorsInput.str ("http://example.com")) :=
  cors_https_variant_for_string_input ("http://example.com") ("http://example.com")
    (by decide) (by decide)

/-! ## Claim C7 -/

/-- Evaluation of the www-variant logic at the inputs where it violates
claim C7: the leading-`www.` test is applied to the whole origin string
rather than to its host, so `http://www.example.com` (whose host
already starts with `www.`) gains the doubled variant
`http://www.www.example.com`, while the bare domain `example.com`
(whose host does not start with `www.`) gains no `www.` sibling at all,
because the variant is built by replacing `://`, which a bare domain
does not contain. -/
theorem cors_www_expansion_bug_eval :
    ("http://www.www.example.com"
        ∈ parse_cors_origins (CorsInput.str ("http://www.example.com"))) ∧
    ¬ ("www.example.com" ∈ parse_cors_origins (CorsInput.str ("example.com"))) := by
  constructor
  · decide
  · decide


/-! ## Connection-manager lemmas -/

/-- `connect` does not change the configured maximum. -/
lemma connect_max_eq (m : ConnectionManager) (ws : WSocket) (now : Nat) :
    (ConnectionManager.connect m ws now).1.max_connections = m.max_connections := by
  unfold ConnectionManager.connect
  split <;> split <;> first | rfl | (split <;> rfl)

/-- `disconnect` does not change the configured maximum. -/
lemma disconnect_max_eq (m : ConnectionManager) (ws : WSocket) :
    (ConnectionManager.disconnect m ws).1.max_connections = m.max_connections := rfl

/-- Running any operation sequence does not change the configured
maximum. -/
lemma runOps_max_eq (m : ConnectionManager) (ops : List CMOp) :
    (runOps m ops).max_connections = m.max_connections := by
  induction ops generalizing m with
  | nil => rfl
  | cons op rest ih =>
    cases op with
    | conn ws now => rw [runOps, ih, connect_max_eq]
    | disc ws => rw [runOps, ih, disconnect_max_eq]

/-- Removing a client never lengthens the table. -/
lemma removeClient_length_le (t : List ConnEntry) (cid : String) :
    (removeClient t cid).length ≤ t.length :=
  List.length_filter_le _ t

/-- `connect` preserves the size bound on the connection table. -/
lemma connect_length_le (m : ConnectionManager) (ws : WSocket) (now : Nat)
    (h : m.active_connections.length ≤ m.max_connections) :
    (ConnectionManager.connect m ws now).1.active_connections.length
      ≤ m.max_connections := by
  unfold ConnectionManager.connect
  split
  · split
    · exact le_trans (removeClient_length_le _ _) h
    · split
      · rename_i hge _hacc
        simp only [List.length_append, List.length_cons, List.length_nil]
        omega
      · exact le_trans (removeClient_length_le _ _) h
  · split
    · exact h
    · split
      · rename_i hge _hacc
        simp only [List.length_append, List.length_cons, List.length_nil]
        omega
      · exact h

/-- `disconnect` preserves the size bound on the connection table. -/
lemma disconnect_length_le (m : ConnectionManager) (ws : WSocket)
    (h : m.active_connections.length ≤ m.max_connections) :
    (ConnectionManager.disconnect m ws).1.active_connections.length
      ≤ m.max_connections :=
  le_trans (removeClient_length_le _ _) h

/-- The size bound on the connection table is an invariant of every
operation sequence. -/
lemma runOps_length_le (m : ConnectionManager) (ops : List CMOp)
    (h : m.active_connections.length ≤ m.max_connections) :
    (runOps m ops).active_connections.length ≤ m.max_connections := by
  induction ops generalizing m with
  | nil => exact h
  | cons op rest ih =>
    cases op with
    | conn ws now =>
      rw [runOps]
      have h1 : (ConnectionManager.connect m ws now).1.active_connections.length
          ≤ (ConnectionManager.connect m ws now).1.max_connections := by
        rw [connect_max_eq]; exact connect_length_le m ws now h
      have h2 := ih (ConnectionManager.connect m ws now).1 h1
      rwa [connect_max_eq] at h2
    | disc ws =>
      rw [runOps]
      have h1 : (ConnectionManager.disconnect m ws).1.active_connections.length
          ≤ (ConnectionManager.disconnect m ws).1.max_connections := by
        rw [disconnect_max_eq]; exact disconnect_length_le m ws h
      have h2 := ih (ConnectionManager.disconnect m ws).1 h1
      rwa [disconnect_max_eq] at h2

/-- Membership in the table after removing a client identity. -/
lemma mem_removeClient {t : List ConnEntry} {cid : String} {e : ConnEntry} :
    e ∈ removeClient t cid ↔ e ∈ t ∧ ¬ e.cid = cid := by
  simp [removeClient, List.mem_filter]

/-- The identity keys after a removal form a sublist of the original
keys. -/
lemma removeClient_keys_sublist (t : List ConnEntry) (cid : String) :
    ((removeClient t cid).map ConnEntry.cid).Sublist (t.map ConnEntry.cid) :=
  (List.filter_sublist t).map ConnEntry.cid

/-- Removal preserves distinctness of the identity keys. -/
lemma removeClient_keys_nodup (t : List ConnEntry) (cid : String)
    (h : (t.map ConnEntry.cid).Nodup) :
    ((removeClient t cid).map ConnEntry.cid).Nodup :=
  List.Nodup.sublist (removeClient_keys_sublist t cid) h

/-- Appending an entry with a fresh identity preserves distinctness of
the identity keys. -/
lemma keys_nodup_append_new (t : List ConnEntry) (cid : String) (ws : WSocket)
    (now : Nat) (h : (t.map ConnEntry.cid).Nodup)
    (hc : ∀ e ∈ t, ¬ e.cid = cid) :
    ((t ++ [ConnEntry.mk cid ws now]).map ConnEntry.cid).Nodup := by
  rw [List.map_append, List.nodup_append]
  refine ⟨h, List.nodup_singleton _, ?_⟩
  intro a ha hb
  rcases List.mem_map.mp ha with ⟨e, he, rfl⟩
  simp at hb
  exact hc e he hb

/-- `connect` preserves distinctness of the identity keys. -/
lemma connect_keys_nodup (m : ConnectionManager) (ws : WSocket) (now : Nat)
    (h : (m.active_connections.map ConnEntry.cid).Nodup) :
    ((ConnectionManager.connect m ws now).1.active_connections.map ConnEntry.cid).Nodup := by
  unfold ConnectionManager.connect
  split
  · split
    · exact removeClient_keys_nodup _ _ h
    · split
      · refine keys_nodup_append_new _ _ _ _ (removeClient_keys_nodup _ _ h) ?_
        intro e he
        exact (mem_removeClient.mp he).2
      · exact removeClient_keys_nodup _ _ h
  · rename_i hfind
    split
    · exact h
    · split
      · refine keys_nodup_append_new _ _ _ _ h ?_
        intro e he hcid
        have := List.find?_eq_none.mp hfind e he
        simp [hcid] at this
      · exact h

/-- `disconnect` preserves distinctness of the identity keys. -/
lemma disconnect_keys_nodup (m : ConnectionManager) (ws : WSocket)
    (h : (m.active_connections.map ConnEntry.cid).Nodup) :
    ((ConnectionManager.disconnect m ws).1.active_connections.map ConnEntry.cid).Nodup :=
  removeClient_keys_nodup _ _ h

/-- Distinctness of the identity keys is an invariant of every
operation sequence. -/
lemma runOps_keys_nodup (m : ConnectionManager) (ops : List CMOp)
    (h : (m.active_connections.map ConnEntry.cid).Nodup) :
    ((runOps m ops).active_connections.map ConnEntry.cid).Nodup := by
  induction ops generalizing m with
  | nil => exact h
  | cons op rest ih =>
    cases op with
    | conn ws now => exact ih _ (connect_keys_nodup m ws now h)
    | disc ws => exact ih _ (disconnect_keys_nodup m ws h)

/-- In a table with distinct identity keys, looking up the identity of
a member entry finds exactly that entry. -/
lemma find?_cid_of_mem {t : List ConnEntry} {cid : String} {old : ConnEntry}
    (hn : (t.map ConnEntry.cid).Nodup) (hm : old ∈ t) (hc : old.cid = cid) :
    t.find? (fun e => e.cid == cid) = some old := by
  induction t with
  | nil => cases hm
  | cons a t ih =>
    rw [List.map_cons, List.nodup_cons] at hn
    rcases List.mem_cons.mp hm with rfl | hmem
    · exact List.find?_cons_of_pos _ (by simp [hc])
    · have hne : ¬ a.cid = cid := by
        intro he
        exact hn.1 (List.mem_map.mpr ⟨old, hmem, by rw [hc, he]⟩)
      rw [List.find?_cons_of_neg _ (by simp [hne])]
      exact ih hn.2 hmem

/-- Removing the identity of a member entry strictly shrinks the
table. -/
lemma removeClient_length_lt {t : List ConnEntry} {cid : String} {old : ConnEntry}
    (hm : old ∈ t) (hc : old.cid = cid) :
    (removeClient t cid).length < t.length := by
  induction t with
  | nil => cases hm
  | cons a t ih =>
    rcases List.mem_cons.mp hm with he | hmem
    · have ha : a.cid = cid := by rw [← he]; exact hc
      have h1 : (removeClient (a :: t) cid).length ≤ t.length := by
        simp only [removeClient]
        rw [List.filter_cons, if_neg (by simp [ha])]
        exact List.length_filter_le _ t
      exact lt_of_le_of_lt h1 (by simp)
    · by_cases ha : a.cid = cid
      · have h1 : (removeClient (a :: t) cid).length ≤ t.length := by
          simp only [removeClient]
          rw [List.filter_cons, if_neg (by simp [ha])]
          exact List.length_filter_le _ t
        exact lt_of_le_of_lt h1 (by simp)
      · have h1 : removeClient (a :: t) cid = a :: removeClient t cid := by
          simp only [removeClient]
          rw [List.filter_cons, if_pos (by simp [ha])]
        rw [h1, List.length_cons, List.length_cons]
        exact Nat.succ_lt_succ (ih hmem)

/-- After removing an identity, no entry with that identity remains. -/
lemma filter_removeClient_eq_nil (t : List ConnEntry) (cid : String) :
    (removeClient t cid).filter (fun e => e.cid == cid) = [] := by
  rw [List.filter_eq_nil_iff]
  intro e he
  simp [(mem_removeClient.mp he).2]

/-! ## Claim C3 -/

/-- Claim C3: starting from a fresh manager, after any sequence of
connect and disconnect operations the connection table never holds more
than `max_connections` entries; and when the table is full and the
connecting identity is not among the stored ones, the connect attempt
is refused — it returns false, closes the websocket with the
policy-violation code 1008, and leaves the manager state unchanged. -/
theorem connection_limit_enforced (maxConn timeoutSecs : Nat) (ops : List CMOp)
    (s : ConnectionManager)
    (hs : s = runOps (ConnectionManager.init maxConn timeoutSecs) ops)
    (ws : WSocket) (now : Nat) :
    s.active_connections.length ≤ maxConn ∧
    (s.active_connections.length ≥ s.max_connections →
      (∀ e ∈ s.active_connections, ¬ e.cid = clientId ws) →
      ConnectionManager.connect s ws now = (s, false, [CloseEv.policy ws 1008])) := by
  constructor
  · subst hs
    exact runOps_length_le (ConnectionManager.init maxConn timeoutSecs) ops
      (by simp [ConnectionManager.init])
  · intro hfull habs
    have hfind : s.active_connections.find? (fun e => e.cid == clientId ws) = none :=
      List.find?_eq_none.mpr (fun e he => by simp [habs e he])
    unfold ConnectionManager.connect
    rw [hfind]
    simp [hfull]

/-- Witness for claim C3: with a maximum of one connection and one
client already connected, a connect from a different identity is
refused with close code 1008 and the state is unchanged. -/
theorem connection_limit_enforced_witness :
    ConnectionManager.connect
        (runOps (ConnectionManager.init 1 600) [CMOp.conn (WSocket.mk "a" 1 true) 0])
        (WSocket.mk "b" 2 true) 5
      = (runOps (ConnectionManager.init 1 600) [CMOp.conn (WSocket.mk "a" 1 true) 0],
          false, [CloseEv.policy (WSocket.mk "b" 2 true) 1008]) :=
  (connection_limit_enforced 1 600 [CMOp.conn (WSocket.mk "a" 1 true) 0]
      _ rfl (WSocket.mk "b" 2 true) 5).2 (by decide) (by decide)

/-! ## Claim C4 -/

/-- Claim C4: starting from a fresh manager, after any sequence of
connect and disconnect operations the table holds at most one entry per
client identity (the identity keys are pairwise distinct); and a second
connect from an identity already present — when its accept succeeds —
first closes the prior channel (the only close issued), removes its
entry, and admits the new one, so that exactly one entry for that
identity remains, namely the new one. -/
theorem one_connection_per_identity (maxConn timeoutSecs : Nat) (ops : List CMOp)
    (s : ConnectionManager)
    (hs : s = runOps (ConnectionManager.init maxConn timeoutSecs) ops)
    (ws : WSocket) (now : Nat) :
    (s.active_connections.map ConnEntry.cid).Nodup ∧
    (∀ old ∈ s.active_connections, old.cid = clientId ws → ws.acceptOk = true →
      ConnectionManager.connect s ws now
          = ({ s with active_connections :=
                removeClient s.active_connections (clientId ws)
                  ++ [ConnEntry.mk (clientId ws) ws now] },
              true, [CloseEv.plain old.ws]) ∧
      (ConnectionManager.connect s ws now).1.active_connections.filter
          (fun e => e.cid == clientId ws)
        = [ConnEntry.mk (clientId ws) ws now]) := by
  have hnodup : (s.active_connections.map ConnEntry.cid).Nodup := by
    subst hs
    exact runOps_keys_nodup _ ops (by simp [ConnectionManager.init])
  refine ⟨hnodup, ?_⟩
  intro old hold hcid hacc
  have hlen : s.active_connections.length ≤ s.max_connections := by
    have h1 := runOps_length_le (ConnectionManager.init maxConn timeoutSecs) ops
      (by simp [ConnectionManager.init])
    have h2 := runOps_max_eq (ConnectionManager.init maxConn timeoutSecs) ops
    rw [← hs] at h1 h2
    rw [h2]
    exact h1
  have hfind : s.active_connections.find? (fun e => e.cid == clientId ws) = some old :=
    find?_cid_of_mem hnodup hold hcid
  have hlt : (removeClient s.active_connections (clientId ws)).length
      < s.active_connections.length := removeClient_length_lt hold hcid
  have hnotfull : ¬ ((removeClient s.active_connections (clientId ws)).length
      ≥ s.max_connections) := by omega
  have hconn : ConnectionManager.connect s ws now
      = ({ s with active_connections :=
            removeClient s.active_connections (clientId ws)
              ++ [ConnEntry.mk (clientId ws) ws now] },
          true, [CloseEv.plain old.ws]) := by
    unfold ConnectionManager.connect
    rw [hfind]
    simp [hnotfull, hacc]
  refine ⟨hconn, ?_⟩
  rw [hconn]
  rw [List.filter_append, filter_removeClient_eq_nil]
  simp

/-- Witness for claim C4: reconnecting the identity already connected
leaves exactly one entry for it — the fresh one — and the old channel
is the one closed. -/
theorem one_connection_per_identity_witness :
    ConnectionManager.connect
        (runOps (ConnectionManager.init 3 600) [CMOp.conn (WSocket.mk "a" 1 true) 0])
        (WSocket.mk "a" 1 true) 7
      = ({ runOps (ConnectionManager.init 3 600) [CMOp.conn (WSocket.mk "a" 1 true) 0] with
            active_connections :=
              removeClient
                (runOps (ConnectionManager.init 3 600)
                  [CMOp.conn (WSocket.mk "a" 1 true) 0]).active_connections
                (clientId (WSocket.mk "a" 1 true))
                ++ [ConnEntry.mk (clientId (WSocket.mk "a" 1 true)) (WSocket.mk "a" 1 true) 7] },
          true, [CloseEv.plain (WSocket.mk "a" 1 true)]) ∧
    (ConnectionManager.connect
        (runOps (ConnectionManager.init 3 600) [CMOp.conn (WSocket.mk "a" 1 true) 0])
        (WSocket.mk "a" 1 true) 7).1.active_connections.filter
        (fun e => e.cid == clientId (WSocket.mk "a" 1 true))
      = [ConnEntry.mk (clientId (WSocket.mk "a" 1 true)) (WSocket.mk "a" 1 true) 7] :=
  (one_connection_per_identity 3 600 [CMOp.conn (WSocket.mk "a" 1 true) 0]
      _ rfl (WSocket.mk "a" 1 true) 7).2
    (ConnEntry.mk "a:1" (WSocket.mk "a" 1 true) 0) (by decide) (by decide) rfl
